import Mathlib

/-!
Verification of the synthetic transaction generator of
src/big_data_pipeline.py (function generate_large_data).

The generator seeds the process-wide PRNG with the constant 42, draws the
per-row random fields column by column, computes the derived fields
TotalAmount and Profit, formats the Date column as YYYY-MM-DD strings and
serializes everything to a CSV file with a header row.

The PRNG itself (numpy MT19937) is an external library, so it is modelled
abstractly: a draw is a deterministic 64-bit mixing function of the seed
and the index of the draw in the stream.  Integer draws land in the
half-open range of randint, uniform draws are modelled over the rationals
as lo + (hi - lo) * k / 2^53 with k the low 53 bits of the raw draw,
matching the numpy contract that uniform samples lie in [lo, hi).
Python floats are modelled as rationals.
-/

namespace BigDataPipeline

/-- One 64-bit word drawn from the modelled PRNG stream: a deterministic
mixing function of the seed and the position of the draw in the stream
(splitmix-style finalizer, reduced modulo 2^64 at every step). -/
def mix (seed idx : Nat) : Nat :=
  let z := (seed + idx * 11400714819323198485 + 1442695040888963407) % 18446744073709551616
  let z := ((z ^^^ (z >>> 30)) * 13787848793156543929) % 18446744073709551616
  let z := ((z ^^^ (z >>> 27)) * 10723151780598845931) % 18446744073709551616
  (z ^^^ (z >>> 31)) % 18446744073709551616

/-- Denominator of the modelled uniform draws: numpy random_sample has
53-bit granularity. -/
def unitDenom : Nat := 2 ^ 53

/-- A sample in the unit interval [0, 1): the low 53 bits of a raw draw
divided by 2^53. -/
def unitSample (r : Nat) : ℚ := ((r % unitDenom : Nat) : ℚ) / (unitDenom : ℚ)

/-- Model of numpy.random.uniform(lo, hi): lo + (hi - lo) * u with u a
unit sample, landing in [lo, hi) when lo < hi. -/
def unif (lo hi : ℚ) (r : Nat) : ℚ := lo + (hi - lo) * unitSample r

/-- Model of one numpy.random.randint(lo, hi) draw (hi exclusive). -/
def randIntAt (lo hi r : Nat) : Nat := lo + r % (hi - lo)

/-- Model of one numpy.random.choice(xs) draw: a uniformly chosen index
into the list. -/
def choiceAt (xs : List String) (r : Nat) : String := xs.getD (r % xs.length) ""

/-- Leap-year test of the Gregorian calendar (as in Python datetime). -/
def isLeap (y : Nat) : Bool := (y % 4 == 0 && y % 100 != 0) || (y % 400 == 0)

/-- Number of days of a Gregorian year. -/
def daysInYear (y : Nat) : Nat := if isLeap y then 366 else 365

/-- Month lengths of a Gregorian year, January first. -/
def monthLengths (y : Nat) : List Nat :=
  [31, if isLeap y then 29 else 28, 31, 30, 31, 30, 31, 31, 30, 31, 30, 31]

/-- Turn a zero-based day offset inside a year into a (month, day) pair,
walking the month lengths. -/
def monthDayAux : List Nat → Nat → Nat → Nat × Nat
  | [], m, d => (m, d + 1)
  | L :: Ls, m, d => if d < L then (m, d + 1) else monthDayAux Ls (m + 1) (d - L)

/-- Calendar date (year, month, day) of the zero-based day offset d inside
year y. -/
def monthDayOf (y d : Nat) : Nat × Nat × Nat :=
  let md := monthDayAux (monthLengths y) 1 d
  (y, md.1, md.2)

/-- Walk whole years from a starting year, consuming the day offset; the
fuel bounds the number of year steps (each step consumes at least 365
days, so fuel = days is always enough). -/
def dateFromDaysAux : Nat → Nat → Nat → Nat × Nat × Nat
  | 0, y, d => monthDayOf y d
  | fuel + 1, y, d =>
      if d < daysInYear y then monthDayOf y d
      else dateFromDaysAux fuel (y + 1) (d - daysInYear y)

/-- Calendar date of 2020-01-01 plus k days, modelling
datetime(2020, 1, 1) + timedelta(days=k). -/
def dateOfOffset (k : Nat) : Nat × Nat × Nat := dateFromDaysAux k 2020 k

/-- Two-digit zero padding, as strftime produces for months and days. -/
def pad2 (n : Nat) : String := if n < 10 then "0" ++ toString n else toString n

/-- ISO-8601 rendering of a calendar date, modelling strftime with the
format string of line 61 of the source. -/
def isoDate (d : Nat × Nat × Nat) : String :=
  toString d.1 ++ "-" ++ pad2 d.2.1 ++ "-" ++ pad2 d.2.2

/-- Lexicographic order on calendar dates, which on valid dates agrees
with chronological order. -/
def dateLE (a b : Nat × Nat × Nat) : Prop :=
  a.1 < b.1 ∨ (a.1 = b.1 ∧ (a.2.1 < b.2.1 ∨ (a.2.1 = b.2.1 ∧ a.2.2 ≤ b.2.2)))

instance (a b : Nat × Nat × Nat) : Decidable (dateLE a b) := by
  unfold dateLE; infer_instance

/-- The fixed Region enumeration of line 36 of the source. -/
def regions : List String := ["North", "South", "East", "West", "Central"]

/-- The fixed ProductCategory enumeration of line 37 of the source. -/
def product_categories : List String :=
  ["Electronics", "Clothing", "Home Goods", "Books", "Food", "Software", "Services"]

/-- The fixed PaymentMethod enumeration of line 38 of the source. -/
def payment_methods : List String :=
  ["Credit Card", "Debit Card", "PayPal", "Bank Transfer"]

/-- One generated transaction record, with the eleven fields of the final
dataframe.  Floats are modelled as rationals; the Date field keeps both
the raw day offset and the formatted string. -/
structure Row where
  transactionID : Nat
  dateOffset : Nat
  date : String
  customerID : Nat
  region : String
  productCategory : String
  unitsSold : Nat
  pricePerUnit : ℚ
  paymentMethod : String
  shippingCost : ℚ
  totalAmount : ℚ
  profit : ℚ
  deriving DecidableEq

/-- Row i (zero-based) of a generation of n records under the given seed.
The source draws each random column as a block of n consecutive stream
positions, in this order: date offsets (line 33), customer ids (line 39),
regions, product categories, units sold, price per unit, payment methods,
shipping costs (lines 45 to 50), then profit margins and deductions
(line 57).  Hence column c of row i reads stream position c * n + i.
TotalAmount is UnitsSold * PricePerUnit + ShippingCost (line 56); Profit
is TotalAmount * margin - deduction clamped from below at 0.5
(lines 57 and 58). -/
def mkRow (seed n i : Nat) : Row :=
  let off := mix seed i % 1095
  let cust := randIntAt 10000 99999 (mix seed (n + i))
  let reg := choiceAt regions (mix seed (2 * n + i))
  let cat := choiceAt product_categories (mix seed (3 * n + i))
  let units := randIntAt 1 10 (mix seed (4 * n + i))
  let price := unif 5 1000 (mix seed (5 * n + i))
  let pay := choiceAt payment_methods (mix seed (6 * n + i))
  let ship := unif 0 25 (mix seed (7 * n + i))
  let total := (units : ℚ) * price + ship
  let margin := unif (1/10) (2/5) (mix seed (8 * n + i))
  let ded := unif 0 5 (mix seed (9 * n + i))
  let profit := max (1/2 : ℚ) (total * margin - ded)
  { transactionID := i + 1
    dateOffset := off
    date := isoDate (dateOfOffset off)
    customerID := cust
    region := reg
    productCategory := cat
    unitsSold := units
    pricePerUnit := price
    paymentMethod := pay
    shippingCost := ship
    totalAmount := total
    profit := profit }

/-- The n generated rows, in generation order: TransactionID is
numpy.arange(1, n + 1) of line 42, so row i carries id i + 1. -/
def mkRows (seed n : Nat) : List Row := (List.range n).map (mkRow seed n)

/-- The header line of the CSV file: the dataframe columns in insertion
order (lines 41 to 51 then 56 and 57 of the source). -/
def headerFields : List String :=
  ["TransactionID", "Date", "CustomerID", "Region", "ProductCategory",
   "UnitsSold", "PricePerUnit", "PaymentMethod", "ShippingCost",
   "TotalAmount", "Profit"]

/-- The CSV rendering of one row: its eleven fields, in header order,
as strings. -/
def rowFields (r : Row) : List String :=
  [toString r.transactionID, r.date, toString r.customerID, r.region,
   r.productCategory, toString r.unitsSold, toString r.pricePerUnit,
   r.paymentMethod, toString r.shippingCost, toString r.totalAmount,
   toString r.profit]

/-- The full CSV file as a list of lines, each line a list of fields:
header first, then one line per row in generation order (to_csv with
index=False, line 64). -/
def csvOf (rows : List Row) : List (List String) :=
  headerFields :: rows.map rowFields

/-- The byte content of the CSV file: fields joined by commas, lines
terminated by a newline. -/
def csvString (file : List (List String)) : String :=
  String.join (file.map (fun l => String.intercalate "," l ++ "\n"))

/-- The generator, for an arbitrary seed.  num_samples may be any Python
integer.  The date list comprehension of line 33 iterates range(n), which
is empty for n less than or equal to 0 and raises nothing; the first
vectorized numpy draw, customer ids at line 39, raises ValueError for a
negative size before the output file is ever opened.  A successful run
returns the CSV file written at line 64; an error means no file was
created. -/
def generateFile (seed : Nat) (num_samples : Int) : Except String (List (List String)) :=
  if num_samples < 0 then
    Except.error "ValueError: negative dimensions are not allowed"
  else
    Except.ok (csvOf (mkRows seed num_samples.toNat))

/-- generate_large_data of line 20: seeds the PRNG with the constant 42
(line 29) and runs the generator. -/
def generate_large_data (num_samples : Int) : Except String (List (List String)) :=
  generateFile 42 num_samples

/-! Helper lemmas about the modelled draws and the generated rows. -/

theorem unitSample_nonneg (r : Nat) : 0 ≤ unitSample r := by
  unfold unitSample
  positivity

theorem unitSample_lt_one (r : Nat) : unitSample r < 1 := by
  unfold unitSample unitDenom
  rw [div_lt_one (by norm_num)]
  exact_mod_cast Nat.mod_lt _ (by norm_num)

theorem unif_mem (lo hi : ℚ) (r : Nat) (h : lo < hi) :
    lo ≤ unif lo hi r ∧ unif lo hi r < hi := by
  have h0 := unitSample_nonneg r
  have h1 := unitSample_lt_one r
  unfold unif
  constructor
  · nlinarith
  · nlinarith

theorem randIntAt_mem (lo hi r : Nat) (h : lo < hi) :
    lo ≤ randIntAt lo hi r ∧ randIntAt lo hi r < hi := by
  have hm : r % (hi - lo) < hi - lo := Nat.mod_lt _ (by omega)
  unfold randIntAt
  omega

theorem choiceAt_mem (xs : List String) (r : Nat) (h : xs ≠ []) : choiceAt xs r ∈ xs := by
  have hlen : 0 < xs.length := List.length_pos.2 h
  have hidx : r % xs.length < xs.length := Nat.mod_lt _ hlen
  unfold choiceAt
  rw [List.getD_eq_getElem _ _ hidx]
  exact List.getElem_mem hidx

theorem mem_mkRows {seed n : Nat} {r : Row} (h : r ∈ mkRows seed n) :
    ∃ i, i < n ∧ r = mkRow seed n i := by
  rcases List.mem_map.1 h with ⟨i, hi, rfl⟩
  exact ⟨i, List.mem_range.mp hi, rfl⟩

theorem mkRow_transactionID (seed n i : Nat) : (mkRow seed n i).transactionID = i + 1 := rfl

theorem mkRow_dateOffset (seed n i : Nat) : (mkRow seed n i).dateOffset = mix seed i % 1095 := rfl

theorem mkRow_date (seed n i : Nat) :
    (mkRow seed n i).date = isoDate (dateOfOffset ((mkRow seed n i).dateOffset)) := rfl

theorem mkRow_profit (seed n i : Nat) :
    (mkRow seed n i).profit =
      max (1/2) ((mkRow seed n i).totalAmount * unif (1/10) (2/5) (mix seed (8 * n + i))
        - unif 0 5 (mix seed (9 * n + i))) := rfl

set_option maxRecDepth 4000 in
set_option maxHeartbeats 1000000 in
theorem dateOfOffset_bounds : ∀ k, k < 1095 →
    dateLE (2020, 1, 1) (dateOfOffset k) ∧ dateLE (dateOfOffset k) (2022, 12, 30) := by
  decide

/-! Claim theorems. -/

/-- C1: the generated dataset is a deterministic function of the record
count and the seed alone: two runs with the same N and the same seed
produce byte-identical CSV output, and generate_large_data is exactly the
seeded generator at the constant seed 42. -/
theorem c1_determinism (seed : Nat) (n₁ n₂ : Int) (h : n₁ = n₂) :
    (generateFile seed n₁).map csvString = (generateFile seed n₂).map csvString ∧
    generate_large_data n₁ = generateFile 42 n₁ := by
  subst h
  exact ⟨rfl, rfl⟩

theorem c1_determinism_witness :
    (3 : Int) = 3 ∧
    ((generateFile 42 3).map csvString = (generateFile 42 3).map csvString ∧
      generate_large_data 3 = generateFile 42 3) :=
  ⟨rfl, c1_determinism 42 3 3 rfl⟩

/-- C2: in every generated row, TotalAmount equals
UnitsSold * PricePerUnit + ShippingCost, computed from the fields of that
same row. -/
theorem c2_totalAmount (seed n : Nat) (r : Row) (h : r ∈ mkRows seed n) :
    r.totalAmount = (r.unitsSold : ℚ) * r.pricePerUnit + r.shippingCost := by
  obtain ⟨i, hi, rfl⟩ := mem_mkRows h
  rfl

theorem c2_totalAmount_witness :
    mkRow 42 1 0 ∈ mkRows 42 1 ∧
    (mkRow 42 1 0).totalAmount =
      ((mkRow 42 1 0).unitsSold : ℚ) * (mkRow 42 1 0).pricePerUnit + (mkRow 42 1 0).shippingCost :=
  by
  have hm : mkRow 42 1 0 ∈ mkRows 42 1 := by
    unfold mkRows
    exact List.mem_map_of_mem _ (by decide)
  exact ⟨hm, c2_totalAmount 42 1 (mkRow 42 1 0) hm⟩

/-- C3: in every generated row, Profit is TotalAmount times a random
margin in [0.1, 0.4), minus a random deduction in [0, 5), clamped from
below at 0.5; hence Profit is at least 0.5. -/
theorem c3_profit (seed n : Nat) (r : Row) (h : r ∈ mkRows seed n) :
    1/2 ≤ r.profit ∧
    ∃ m d : ℚ, 1/10 ≤ m ∧ m < 2/5 ∧ 0 ≤ d ∧ d < 5 ∧
      r.profit = max (1/2) (r.totalAmount * m - d) := by
  obtain ⟨i, hi, rfl⟩ := mem_mkRows h
  constructor
  · rw [mkRow_profit]
    exact le_max_left _ _
  · refine ⟨unif (1/10) (2/5) (mix seed (8 * n + i)), unif 0 5 (mix seed (9 * n + i)),
      (unif_mem _ _ _ (by norm_num)).1, (unif_mem _ _ _ (by norm_num)).2,
      (unif_mem _ _ _ (by norm_num)).1, (unif_mem _ _ _ (by norm_num)).2,
      mkRow_profit seed n i⟩

theorem c3_profit_witness :
    mkRow 42 1 0 ∈ mkRows 42 1 ∧
    (1/2 ≤ (mkRow 42 1 0).profit ∧
     ∃ m d : ℚ, 1/10 ≤ m ∧ m < 2/5 ∧ 0 ≤ d ∧ d < 5 ∧
       (mkRow 42 1 0).profit = max (1/2) ((mkRow 42 1 0).totalAmount * m - d)) :=
  by
  have hm : mkRow 42 1 0 ∈ mkRows 42 1 := by
    unfold mkRows
    exact List.mem_map_of_mem _ (by decide)
  exact ⟨hm, c3_profit 42 1 (mkRow 42 1 0) hm⟩

/-- C4 counterexample: at N = 0 the generator does not fail at all; it
succeeds and writes a header-only file (exactly the header line and no
data line), contradicting the claim that every N at most 0 fails with an
invalid-argument error. -/
theorem c4_counterexample :
    generate_large_data 0 = Except.ok [headerFields] ∧
    (Except.ok [headerFields] : Except String (List (List String))) ≠
      Except.error "ValueError: negative dimensions are not allowed" := by
  constructor
  · rfl
  · intro hcontra
    cases hcontra

/-- C4 amended: a strictly negative record count fails with an
invalid-argument error (the ValueError numpy raises on a negative array
size) and emits no file, but N = 0 does not fail: it emits a header-only
output file. -/
theorem c4_amended (n : Int) (h : n ≤ 0) :
    (n < 0 → generate_large_data n =
      Except.error "ValueError: negative dimensions are not allowed") ∧
    (n = 0 → generate_large_data n = Except.ok [headerFields]) := by
  constructor
  · intro hneg
    unfold generate_large_data generateFile
    rw [if_pos hneg]
  · intro h0
    subst h0
    rfl

theorem c4_amended_witness :
    (-1 : Int) ≤ 0 ∧
    (((-1 : Int) < 0 → generate_large_data (-1) =
        Except.error "ValueError: negative dimensions are not allowed") ∧
     ((-1 : Int) = 0 → generate_large_data (-1) = Except.ok [headerFields])) :=
  ⟨by decide, c4_amended (-1) (by decide)⟩

/-- C5: for every record count, the TransactionID column is exactly the
sequence 1, 2, ..., N in order; it has no duplicates, and its members are
exactly the integers from 1 to N. -/
theorem c5_transactionIDs (seed n : Nat) :
    (mkRows seed n).map Row.transactionID = List.range' 1 n ∧
    ((mkRows seed n).map Row.transactionID).Nodup ∧
    (∀ t, t ∈ (mkRows seed n).map Row.transactionID ↔ 1 ≤ t ∧ t ≤ n) := by
  have hmap : (mkRows seed n).map Row.transactionID = List.range' 1 n := by
    unfold mkRows
    rw [List.map_map, List.range'_eq_map_range]
    apply List.map_congr_left
    intro i hi
    rw [Function.comp_apply, mkRow_transactionID]
    omega
  refine ⟨hmap, ?_, ?_⟩
  · rw [hmap]
    exact List.nodup_range' 1 n
  · intro t
    rw [hmap, List.mem_range'_1]
    omega

/-- C6: the CSV file of a run with N at least 1 has exactly N + 1 lines:
the header line with the eleven column names in order, then one line per
record in generation order whose first field is the TransactionID i + 1
of row i; concretely, N = 3 under seed 42 gives 4 lines whose first
column reads TransactionID, 1, 2, 3. -/
theorem c6_csv_shape (seed n : Nat) (_h : 1 ≤ n) :
    (csvOf (mkRows seed n)).length = n + 1 ∧
    (csvOf (mkRows seed n)).head? = some headerFields ∧
    (∀ i, i < n → ((csvOf (mkRows seed n)).getD (i + 1) []).head? =
      some (toString (i + 1))) ∧
    (csvOf (mkRows 42 3)).map (fun l => l.headD "") = ["TransactionID", "1", "2", "3"] := by
  refine ⟨?_, rfl, ?_, by decide⟩
  · simp [csvOf, mkRows]
  · intro i hi
    have hget : (csvOf (mkRows seed n))[i + 1]? = some (rowFields (mkRow seed n i)) := by
      simp [csvOf, mkRows, hi]
    rw [List.getD_eq_getElem?_getD, hget]
    rfl

theorem c6_csv_shape_witness :
    1 ≤ 3 ∧
    ((csvOf (mkRows 42 3)).length = 3 + 1 ∧
     (csvOf (mkRows 42 3)).head? = some headerFields ∧
     (∀ i, i < 3 → ((csvOf (mkRows 42 3)).getD (i + 1) []).head? =
       some (toString (i + 1))) ∧
     (csvOf (mkRows 42 3)).map (fun l => l.headD "") = ["TransactionID", "1", "2", "3"]) :=
  ⟨by decide, c6_csv_shape 42 3 (by decide)⟩

/-- C7: every generated row carries a day offset below 1095, its Date
field is the ISO-8601 string of 2020-01-01 plus that offset, and the
resulting calendar date lies between 2020-01-01 and 2022-12-30. -/
theorem c7_dates (seed n : Nat) (r : Row) (h : r ∈ mkRows seed n) :
    r.dateOffset < 1095 ∧
    r.date = isoDate (dateOfOffset r.dateOffset) ∧
    dateLE (2020, 1, 1) (dateOfOffset r.dateOffset) ∧
    dateLE (dateOfOffset r.dateOffset) (2022, 12, 30) := by
  obtain ⟨i, hi, rfl⟩ := mem_mkRows h
  have hoff : (mkRow seed n i).dateOffset < 1095 := by
    rw [mkRow_dateOffset]
    exact Nat.mod_lt _ (by norm_num)
  exact ⟨hoff, mkRow_date seed n i,
    (dateOfOffset_bounds _ hoff).1, (dateOfOffset_bounds _ hoff).2⟩

theorem c7_dates_witness :
    mkRow 42 1 0 ∈ mkRows 42 1 ∧
    ((mkRow 42 1 0).dateOffset < 1095 ∧
     (mkRow 42 1 0).date = isoDate (dateOfOffset (mkRow 42 1 0).dateOffset) ∧
     dateLE (2020, 1, 1) (dateOfOffset (mkRow 42 1 0).dateOffset) ∧
     dateLE (dateOfOffset (mkRow 42 1 0).dateOffset) (2022, 12, 30)) :=
  by
  have hm : mkRow 42 1 0 ∈ mkRows 42 1 := by
    unfold mkRows
    exact List.mem_map_of_mem _ (by decide)
  exact ⟨hm, c7_dates 42 1 (mkRow 42 1 0) hm⟩

/-- C8: every generated row draws Region, ProductCategory and
PaymentMethod from their fixed enumerations; no out-of-set value ever
appears. -/
theorem c8_enums (seed n : Nat) (r : Row) (h : r ∈ mkRows seed n) :
    r.region ∈ regions ∧ r.productCategory ∈ product_categories ∧
    r.paymentMethod ∈ payment_methods := by
  obtain ⟨i, hi, rfl⟩ := mem_mkRows h
  exact ⟨choiceAt_mem _ _ (by decide), choiceAt_mem _ _ (by decide),
    choiceAt_mem _ _ (by decide)⟩

theorem c8_enums_witness :
    mkRow 42 1 0 ∈ mkRows 42 1 ∧
    ((mkRow 42 1 0).region ∈ regions ∧
     (mkRow 42 1 0).productCategory ∈ product_categories ∧
     (mkRow 42 1 0).paymentMethod ∈ payment_methods) :=
  by
  have hm : mkRow 42 1 0 ∈ mkRows 42 1 := by
    unfold mkRows
    exact List.mem_map_of_mem _ (by decide)
  exact ⟨hm, c8_enums 42 1 (mkRow 42 1 0) hm⟩

/-- C9: every generated row has CustomerID an integer in [10000, 99999),
UnitsSold an integer in [1, 10), PricePerUnit in [5, 1000) and
ShippingCost in [0, 25). -/
theorem c9_ranges (seed n : Nat) (r : Row) (h : r ∈ mkRows seed n) :
    (10000 ≤ r.customerID ∧ r.customerID < 99999) ∧
    (1 ≤ r.unitsSold ∧ r.unitsSold < 10) ∧
    (5 ≤ r.pricePerUnit ∧ r.pricePerUnit < 1000) ∧
    (0 ≤ r.shippingCost ∧ r.shippingCost < 25) := by
  obtain ⟨i, hi, rfl⟩ := mem_mkRows h
  exact ⟨randIntAt_mem 10000 99999 _ (by norm_num),
    randIntAt_mem 1 10 _ (by norm_num),
    unif_mem 5 1000 _ (by norm_num),
    unif_mem 0 25 _ (by norm_num)⟩

theorem c9_ranges_witness :
    mkRow 42 1 0 ∈ mkRows 42 1 ∧
    ((10000 ≤ (mkRow 42 1 0).customerID ∧ (mkRow 42 1 0).customerID < 99999) ∧
     (1 ≤ (mkRow 42 1 0).unitsSold ∧ (mkRow 42 1 0).unitsSold < 10) ∧
     (5 ≤ (mkRow 42 1 0).pricePerUnit ∧ (mkRow 42 1 0).pricePerUnit < 1000) ∧
     (0 ≤ (mkRow 42 1 0).shippingCost ∧ (mkRow 42 1 0).shippingCost < 25)) :=
  by
  have hm : mkRow 42 1 0 ∈ mkRows 42 1 := by
    unfold mkRows
    exact List.mem_map_of_mem _ (by decide)
  exact ⟨hm, c9_ranges 42 1 (mkRow 42 1 0) hm⟩

/-- C10: a strictly negative record count makes the generator fail at
the first vectorized numpy draw, before the output path is opened, so no
file is created; by contrast N = 0 reaches the write step and produces a
header-only file. -/
theorem c10_negative (n : Int) (h : n < 0) :
    generate_large_data n =
      Except.error "ValueError: negative dimensions are not allowed" ∧
    generate_large_data 0 = Except.ok [headerFields] := by
  constructor
  · unfold generate_large_data generateFile
    rw [if_pos h]
  · rfl

theorem c10_negative_witness :
    (-5 : Int) < 0 ∧
    (generate_large_data (-5) =
       Except.error "ValueError: negative dimensions are not allowed" ∧
     generate_large_data 0 = Except.ok [headerFields]) :=
  ⟨by decide, c10_negative (-5) (by decide)⟩

end BigDataPipeline
